import Mathlib

/-!
Shallow embedding of the openlmi-scripts account, storage and command modules.

The Python command modules under `src/commands` are translated here as pure
functions over an explicit model of the remote CIM namespace.  Python
generators are modelled as functions producing an `Except` of the fully
consumed yield list; provider-side method invocations and other side effects
are recorded as values of an `Effect` type; a Python exception escaping a
function is the `Except.error` case.
-/

/-- Python exceptions that the translated code can raise.  `lmiFailed` and
`lmiInvalidOptions` model `lmi.scripts.common.errors.LmiFailed` and
`LmiInvalidOptions`; `attributeError`, `keyError` and `indexError` model the
built-in exceptions raised by attribute access on `None`, `dict.pop` of a
missing key and indexing an empty sequence. -/
inductive PyError where
  | lmiFailed (msg : String)
  | lmiInvalidOptions (msg : String)
  | attributeError (msg : String)
  | keyError (key : String)
  | indexError
deriving Repr, DecidableEq

/-- Python values passed as keyword arguments to provider methods: `None`,
strings, booleans, and references to CIM instances (such as the
`Linux_ComputerSystem` instance passed as `System`). -/
inductive PyVal where
  | none
  | str (s : String)
  | bool (b : Bool)
  | inst (ref : String)
deriving Repr, DecidableEq

/-- Python `str.isdigit`: true iff the string is nonempty and every character
is a digit (restricted to ASCII digits in this model; quantification is over
the character list of the string). -/
def pyIsdigit (s : String) : Bool :=
  !s.isEmpty && s.data.all Char.isDigit

/-- Python `x is None` evaluated on a value that is a `str`.  A string object
is never the `None` object, so this is constantly false; it embeds the check
`if user is None` in `add_to_group`, which tests the user *name* (a string
taken from the argument list) rather than the looked-up instance. -/
def strIsNone (_ : String) : Bool := false

/-- Python truthiness of an argument that is either `None` or a list:
`if (xs):` is taken iff `xs` is a nonempty list. -/
def pyTruthy : Option (List String) → Bool
  | some (_ :: _) => true
  | _ => false

/-- Lift an optional string to a Python keyword-argument value. -/
def optStr : Option String → PyVal
  | some s => PyVal.str s
  | none => PyVal.none

/-- Lift an optional CIM instance reference to a keyword-argument value. -/
def optInst : Option String → PyVal
  | some r => PyVal.inst r
  | none => PyVal.none

/-- An `LMI_Identity` instance, identified by its `InstanceID`. -/
structure LMI_Identity where
  instanceID : String
deriving Repr, DecidableEq

/-- An `LMI_Account` instance: `Name` and `UserID` are the properties the
translated code reads. -/
structure LMI_Account where
  name : String
  userID : String
deriving Repr, DecidableEq

/-- An `LMI_Group` instance: `Name` and `InstanceID` are the properties the
translated code reads. -/
structure LMI_Group where
  name : String
  instanceID : String
deriving Repr, DecidableEq

/-- An `LMI_MemberOfGroup` association instance as seen by
`remove_from_group`: the code reads `mog.Collection.Name` and calls
`mog.delete()`; `memberID` identifies the association for the delete
effect. -/
structure LMI_MemberOfGroup where
  memberID : String
  collectionName : String
deriving Repr, DecidableEq

/-- The remote CIM namespace as observed by the account commands.  Lists
model `instances()` enumerations in enumeration order; the function fields
model the association traversals the code performs (`associators`,
`first_associator`, `references`), keyed by the instance they are invoked
on.  `computerSystem` and `lams` model
`ns.Linux_ComputerSystem.first_instance()` and
`ns.LMI_AccountManagementService.first_instance()`, which return `None`
when no instance exists. -/
structure AccountNS where
  accounts : List LMI_Account
  groups : List LMI_Group
  groupFirstIdentity : LMI_Group → Option LMI_Identity
  groupIdentities : LMI_Group → List LMI_Identity
  userIdentity : LMI_Account → Option LMI_Identity
  identityAccount : LMI_Identity → Option LMI_Account
  identityMogs : LMI_Identity → List LMI_MemberOfGroup
  computerSystem : Option String
  lams : Option String

/-- `ns.LMI_Account.first_instance(\x7b"Name": user\x7d)`: the first enumerated
account whose `Name` equals the given string, or `None`. -/
def lookupAccount (ns : AccountNS) (user : String) : Option LMI_Account :=
  ns.accounts.find? (fun a => a.name == user)

/-- `ns.LMI_Group.first_instance(\x7b"Name": group\x7d)`: the first enumerated
group whose `Name` equals the given string, or `None`. -/
def lookupGroup (ns : AccountNS) (group : String) : Option LMI_Group :=
  ns.groups.find? (fun g => g.name == group)

/-- Side effects the account commands perform against the provider. -/
inductive Effect where
  | createGroupCall (params : List (String × PyVal))
  | createAccountCall (params : List (String × PyVal))
  | deleteUserCall (userName : String) (params : List (String × PyVal))
  | groupDelete (groupName : String)
  | mogDelete (memberID : String) (collectionName : String)
  | createMemberOfGroup (memberID : String) (collectionName : String)
  | logInfo (msg : String)
deriving Repr, DecidableEq

/-- Loop body of `show_group` over an explicit group-name list: each name is
resolved with `first_instance` and yielded, and a missing name raises
`LmiFailed` at that point of the iteration. -/
def show_group_loop (ns : AccountNS) : List String → Except PyError (List LMI_Group)
  | [] => Except.ok []
  | g :: rest =>
    match lookupGroup ns g with
    | Option.none => Except.error (PyError.lmiFailed ("No such group \"" ++ g ++ "\""))
    | some inst =>
      match show_group_loop ns rest with
      | Except.error e => Except.error e
      | Except.ok tail => Except.ok (inst :: tail)

/-- `show_group(ns, groups=None)` from group_cmd.py, its generator fully
consumed: with a truthy group list it yields each resolved group, raising
`LmiFailed` on a missing one; otherwise it yields every `LMI_Group`
instance. -/
def show_group (ns : AccountNS) (groups : Option (List String)) : Except PyError (List LMI_Group) :=
  if pyTruthy groups then show_group_loop ns (groups.getD [])
  else Except.ok ns.groups

/-- `get_users_in_group(group)` from group_cmd.py over the list of
`LMI_Identity` associators of the group: each identity is mapped to the
`Name` of its associated `LMI_Account`; a missing account makes the
attribute access `.Name` on `None` raise `AttributeError`. -/
def get_users_in_group (ns : AccountNS) : List LMI_Identity → Except PyError (List String)
  | [] => Except.ok []
  | i :: rest =>
    match ns.identityAccount i with
    | Option.none => Except.error (PyError.attributeError "NoneType object has no attribute Name")
    | some acc =>
      match get_users_in_group ns rest with
      | Except.error e => Except.error e
      | Except.ok tail => Except.ok (acc.name :: tail)

/-- Loop body of `list_users` over an explicit group-name list. -/
def list_users_loop (ns : AccountNS) : List String → Except PyError (List (String × String))
  | [] => Except.ok []
  | g :: rest =>
    match lookupGroup ns g with
    | Option.none => Except.error (PyError.lmiFailed ("No such group \"" ++ g ++ "\""))
    | some inst =>
      match get_users_in_group ns (ns.groupIdentities inst) with
      | Except.error e => Except.error e
      | Except.ok names =>
        match list_users_loop ns rest with
        | Except.error e => Except.error e
        | Except.ok tail => Except.ok ((g, String.intercalate ", " names) :: tail)

/-- `list_users(ns, groups=None)` from group_cmd.py, its generator fully
consumed: pairs of group name and the comma-joined user names. -/
def list_users (ns : AccountNS) (groups : Option (List String)) : Except PyError (List (String × String)) :=
  if pyTruthy groups then list_users_loop ns (groups.getD [])
  else
    (ns.groups.mapM (fun g =>
      match get_users_in_group ns (ns.groupIdentities g) with
      | Except.error e => Except.error e
      | Except.ok names => Except.ok (g.name, String.intercalate ", " names)))

/-- `create_group(ns, group, _reserved, _gid)` from group_cmd.py: builds the
`CreateGroup` keyword arguments — `Name` and `System` always, `SystemAccount`
(as `True`) only when `_reserved` is truthy, `GID` only when `_gid` is not
`None` — and invokes `lams.CreateGroup(**params)`.  When no
`LMI_AccountManagementService` instance exists, the method call on `None`
raises `AttributeError`. -/
def create_group (ns : AccountNS) (group : String) (_reserved : Bool) (_gid : Option String) :
    Except PyError (List Effect) :=
  let params0 : List (String × PyVal) :=
    [("Name", PyVal.str group), ("System", optInst ns.computerSystem)]
  let params1 := if _reserved then params0 ++ [("SystemAccount", PyVal.bool true)] else params0
  let params := match _gid with
    | some g => params1 ++ [("GID", PyVal.str g)]
    | Option.none => params1
  match ns.lams with
  | Option.none => Except.error (PyError.attributeError "NoneType object has no attribute CreateGroup")
  | some _ => Except.ok [Effect.createGroupCall params]

/-- `delete_group(ns, group)` from group_cmd.py. -/
def delete_group (ns : AccountNS) (group : String) : Except PyError (List Effect) :=
  match lookupGroup ns group with
  | Option.none => Except.error (PyError.lmiFailed ("No such group \"" ++ group ++ "\""))
  | some inst => Except.ok [Effect.groupDelete inst.name]

/-- `is_in_group(group, user)` from group_cmd.py, with the second argument
the (possibly `None`) result of the account lookup: reads the first
`LMI_Identity` associated to the group, returns `False` when there is none,
and otherwise compares the last `:`-separated component of its `InstanceID`
with `user.UserID` — an attribute access that raises `AttributeError` when
`user` is `None`. -/
def is_in_group (ns : AccountNS) (group : LMI_Group) (user : Option LMI_Account) : Except PyError Bool :=
  match ns.groupFirstIdentity group with
  | Option.none => Except.ok false
  | some identity =>
    match user with
    | Option.none => Except.error (PyError.attributeError "NoneType object has no attribute UserID")
    | some u => Except.ok (((identity.instanceID.splitOn ":").getLastD "") == u.userID)

/-- Loop body of `add_to_group` from group_cmd.py, translated statement by
statement: the account lookup result is bound, then the source tests
`if user is None` on the *name* (`strIsNone`, constantly false) rather than
on the lookup result, then `is_in_group` is consulted; a member user is
logged and skipped, a non-member user has its `LMI_Identity` read off the
looked-up instance (an `AttributeError` when the lookup returned `None`)
and an `LMI_MemberOfGroup` instance created. -/
def add_to_group_loop (ns : AccountNS) (group_inst : LMI_Group) (group : String) :
    List String → Except PyError (List Effect)
  | [] => Except.ok []
  | user :: rest =>
    let user_inst := lookupAccount ns user
    if strIsNone user then
      Except.error (PyError.lmiFailed ("No such user \"" ++ user ++ "\""))
    else
      match is_in_group ns group_inst user_inst with
      | Except.error e => Except.error e
      | Except.ok true =>
        match add_to_group_loop ns group_inst group rest with
        | Except.error e => Except.error e
        | Except.ok tail =>
          Except.ok (Effect.logInfo ("User \"" ++ user ++ "\" already is in group \"" ++
            group ++ "\", skipping") :: tail)
      | Except.ok false =>
        match user_inst with
        | Option.none =>
          Except.error (PyError.attributeError "NoneType object has no attribute first_associator")
        | some u =>
          match ns.userIdentity u with
          | Option.none =>
            Except.error (PyError.attributeError "NoneType object has no attribute path")
          | some identity =>
            match add_to_group_loop ns group_inst group rest with
            | Except.error e => Except.error e
            | Except.ok tail =>
              Except.ok (Effect.createMemberOfGroup identity.instanceID group_inst.name :: tail)

/-- `add_to_group(ns, group, users)` from group_cmd.py: resolves the group
(raising `LmiFailed` when missing) and then runs the per-user loop. -/
def add_to_group (ns : AccountNS) (group : String) (users : List String) :
    Except PyError (List Effect) :=
  match lookupGroup ns group with
  | Option.none => Except.error (PyError.lmiFailed ("No such group \"" ++ group ++ "\""))
  | some group_inst => add_to_group_loop ns group_inst group users

/-- Loop body of `remove_from_group` from group_cmd.py: each user name is
resolved (raising `LmiFailed` when missing), its `LMI_Identity` is read
(`AttributeError` on `None`), and every `LMI_MemberOfGroup` reference whose
`Collection.Name` equals the group name is deleted. -/
def remove_from_group_loop (ns : AccountNS) (group : String) :
    List String → Except PyError (List Effect)
  | [] => Except.ok []
  | user :: rest =>
    match lookupAccount ns user with
    | Option.none => Except.error (PyError.lmiFailed ("No such user \"" ++ user ++ "\""))
    | some user_inst =>
      match ns.userIdentity user_inst with
      | Option.none =>
        Except.error (PyError.attributeError "NoneType object has no attribute references")
      | some identity =>
        let dels := ((ns.identityMogs identity).filter
            (fun mog => mog.collectionName == group)).map
          (fun mog => Effect.mogDelete mog.memberID mog.collectionName)
        match remove_from_group_loop ns group rest with
        | Except.error e => Except.error e
        | Except.ok tail => Except.ok (dels ++ tail)

/-- `remove_from_group(ns, group, users)` from group_cmd.py. -/
def remove_from_group (ns : AccountNS) (group : String) (users : List String) :
    Except PyError (List Effect) :=
  match lookupGroup ns group with
  | Option.none => Except.error (PyError.lmiFailed ("No such group \"" ++ group ++ "\""))
  | some _ => remove_from_group_loop ns group users

/-- Loop body of `show_user` over an explicit user-name list. -/
def show_user_loop (ns : AccountNS) : List String → Except PyError (List LMI_Account)
  | [] => Except.ok []
  | u :: rest =>
    match lookupAccount ns u with
    | Option.none => Except.error (PyError.lmiFailed ("No such user \"" ++ u ++ "\""))
    | some inst =>
      match show_user_loop ns rest with
      | Except.error e => Except.error e
      | Except.ok tail => Except.ok (inst :: tail)

/-- `show_user(ns, users=None)` from user_cmd.py, its generator fully
consumed: with a truthy user list it yields each resolved account, raising
`LmiFailed` on a missing one; otherwise it yields every `LMI_Account`
instance. -/
def show_user (ns : AccountNS) (users : Option (List String)) : Except PyError (List LMI_Account) :=
  if pyTruthy users then show_user_loop ns (users.getD [])
  else Except.ok ns.accounts

/-- The keyword arguments `delete_user` passes to each `DeleteUser` call. -/
def delete_user_params (_nodeletegroup _nodeletehome _force : Bool) : List (String × PyVal) :=
  [("DontDeleteHomeDirectory", PyVal.bool _nodeletehome),
   ("DontDeleteGroup", PyVal.bool _nodeletegroup),
   ("Force", PyVal.bool _force)]

/-- The first loop of `delete_user`: every user name is resolved with
`first_instance` and collected; a missing name raises `LmiFailed` before
any accumulated instance is acted on. -/
def resolve_users (ns : AccountNS) : List String → Except PyError (List LMI_Account)
  | [] => Except.ok []
  | u :: rest =>
    match lookupAccount ns u with
    | Option.none => Except.error (PyError.lmiFailed ("No such user \"" ++ u ++ "\""))
    | some inst =>
      match resolve_users ns rest with
      | Except.error e => Except.error e
      | Except.ok tail => Except.ok (inst :: tail)

/-- `delete_user(ns, _nodeletegroup, _nodeletehome, _force, users)` from
user_cmd.py: resolves every name first, then issues one `DeleteUser` call
per resolved instance with the flag-derived keyword arguments. -/
def delete_user (ns : AccountNS) (_nodeletegroup _nodeletehome _force : Bool)
    (users : List String) : Except PyError (List Effect) :=
  match resolve_users ns users with
  | Except.error e => Except.error e
  | Except.ok instances =>
    Except.ok (instances.map (fun inst =>
      Effect.deleteUserCall inst.name (delete_user_params _nodeletegroup _nodeletehome _force)))

/-- The keyword options of `user create`, as delivered to `create_user` in
its `kwargs` (docopt string options as `Option String`, docopt flags as
`Bool`; the `--xyz` to `_xyz` key renaming of the command framework is
implicit in the field names). -/
structure UserCreateOpts where
  gecos : Option String := Option.none
  directory : Option String := Option.none
  shell : Option String := Option.none
  uid : Option String := Option.none
  gid : Option String := Option.none
  reserved : Bool := false
  nocreatehome : Bool := false
  nocreategroup : Bool := false
  password : Option String := Option.none
  plainpassword : Option String := Option.none
deriving Repr, DecidableEq

/-- The `params` dictionary of `create_user` before the deletion loop, in
the construction order of the source. -/
def rawCreateAccountParams (name : String) (cs : Option String) (o : UserCreateOpts) :
    List (String × PyVal) :=
  let used_password := if o.password.isNone && o.plainpassword.isSome
    then o.plainpassword else o.password
  let is_plain := o.password.isNone && o.plainpassword.isSome
  [("Name", PyVal.str name),
   ("System", optInst cs),
   ("GECOS", optStr o.gecos),
   ("HomeDirectory", optStr o.directory),
   ("DontCreateHome", PyVal.bool o.nocreatehome),
   ("Shell", optStr o.shell),
   ("UID", optStr o.uid),
   ("GID", optStr o.gid),
   ("SystemAccount", PyVal.bool o.reserved),
   ("Password", optStr used_password),
   ("DontCreateGroup", PyVal.bool o.nocreategroup),
   ("PasswordIsPlain", PyVal.bool is_plain)]

/-- The deletion loop of `create_user`: every key whose value is `None` is
removed from the parameter dictionary. -/
def delNones : List (String × PyVal) → List (String × PyVal)
  | [] => []
  | kv :: rest => if kv.2 == PyVal.none then delNones rest else kv :: delNones rest

/-- `create_user(ns, name, **kwargs)` from user_cmd.py: selects the password
value and the `PasswordIsPlain` flag, builds the parameter dictionary,
deletes its `None`-valued entries and calls `lams.CreateAccount(**params)`
(an `AttributeError` when no `LMI_AccountManagementService` instance
exists). -/
def create_user (ns : AccountNS) (name : String) (o : UserCreateOpts) :
    Except PyError (List Effect) :=
  match ns.lams with
  | Option.none =>
    Except.error (PyError.attributeError "NoneType object has no attribute CreateAccount")
  | some _ =>
    Except.ok [Effect.createAccountCall (delNones (rawCreateAccountParams name ns.computerSystem o))]

/-- The test `x is not None and not x.isdigit()` applied to an optional
docopt string option. -/
def suppliedNotDigit : Option String → Bool
  | some s => !pyIsdigit s
  | Option.none => false

/-- `Create.verify_options` of the `user create` command (user_cmd.py):
checks, in order, that at most one of `--password` and `--plainpassword` is
supplied, that a supplied `--uid` is all digits, and that a supplied
`--gid` is all digits, raising `LmiInvalidOptions` at the first failing
check. -/
def UserCreate.verify_options (o : UserCreateOpts) : Except PyError Unit :=
  if o.password.isSome && o.plainpassword.isSome then
    Except.error (PyError.lmiInvalidOptions "Must set only one of password options")
  else if suppliedNotDigit o.uid then
    Except.error (PyError.lmiInvalidOptions "User ID must be a number")
  else if suppliedNotDigit o.gid then
    Except.error (PyError.lmiInvalidOptions "Group ID must be a number")
  else Except.ok ()

/-- `Create.verify_options` of the `group create` command (group_cmd.py):
checks that a supplied `--gid` is all digits. -/
def GroupCreate.verify_options (_gid : Option String) : Except PyError Unit :=
  if suppliedNotDigit _gid then
    Except.error (PyError.lmiInvalidOptions "Group ID must be a number")
  else Except.ok ()

/-- Modelled from the spec: the command-dispatch framework
(`lmi.scripts.common.command.command`, re-exported by the `__init__` under
src/ but itself not under src/) runs a command as parse, validate, call:
it invokes the `verify_options` hook and only when that returns without
raising does it go on to invoke the provider-calling `CALLABLE`
("parses command-line arguments, validates option shapes, issues provider
calls").  This pipeline composes the `user create` verification with
`create_user`. -/
def runUserCreateCmd (ns : AccountNS) (name : String) (o : UserCreateOpts) :
    Except PyError (List Effect) :=
  match UserCreate.verify_options o with
  | Except.error e => Except.error e
  | Except.ok _ => create_user ns name o

/-- Modelled from the spec: the same verify-then-call pipeline for
`group create`, composing the `group create` verification with
`create_group`. -/
def runGroupCreateCmd (ns : AccountNS) (group : String) (_reserved : Bool)
    (_gid : Option String) : Except PyError (List Effect) :=
  match GroupCreate.verify_options _gid with
  | Except.error e => Except.error e
  | Except.ok _ => create_group ns group _reserved _gid

/-- A value stored in a docopt options dictionary: repeated positional
arguments arrive as lists of strings, scalars as strings. -/
inductive OptVal where
  | str (s : String)
  | list (l : List String)
deriving Repr, DecidableEq

/-- A docopt options dictionary, modelled as an association list in
insertion order; a Python dict never holds a key twice. -/
def OptsDict := List (String × OptVal)

/-- Python dict assignment `d[k] = v`: replaces the value of an existing
key in place, otherwise appends the new key. -/
def dset : OptsDict → String → OptVal → OptsDict
  | [], k, v => [(k, v)]
  | kv :: rest, k, v =>
    if kv.1 == k then (k, v) :: rest else kv :: dset rest k v

/-- Removal of a key from the association list (all occurrences; a dict
holds each key at most once). -/
def dremove : OptsDict → String → OptsDict
  | [], _ => []
  | kv :: rest, k =>
    if kv.1 == k then dremove rest k else kv :: dremove rest k

/-- Python `d.pop(k)`: returns the value and the dictionary without the
key, raising `KeyError` when the key is absent. -/
def dpop (d : OptsDict) (k : String) : Except PyError (OptVal × OptsDict) :=
  match List.lookup k d with
  | some v => Except.ok (v, dremove d k)
  | Option.none => Except.error (PyError.keyError k)

/-- Python `x[0]` on an options value: the head of a list value
(`IndexError` when empty), or the first character of a string value. -/
def optIndex0 : OptVal → Except PyError OptVal
  | OptVal.list [] => Except.error PyError.indexError
  | OptVal.list (x :: _) => Except.ok (OptVal.str x)
  | OptVal.str s =>
    if s.isEmpty then Except.error PyError.indexError else Except.ok (OptVal.str (s.take 1))

/-- `Add.transform_options` of the `group add` command (group_cmd.py):
`options[<group>] = options.pop(<group>)[0]` then
`options[<users>] = options.pop(<user>)`. -/
def GroupAdd.transform_options (d : OptsDict) : Except PyError OptsDict :=
  match dpop d "<group>" with
  | Except.error e => Except.error e
  | Except.ok (gv, d1) =>
    match optIndex0 gv with
    | Except.error e => Except.error e
    | Except.ok g0 =>
      let d2 := dset d1 "<group>" g0
      match dpop d2 "<user>" with
      | Except.error e => Except.error e
      | Except.ok (uv, d3) => Except.ok (dset d3 "<users>" uv)

/-- `Delete.transform_options` of the `user delete` command (user_cmd.py):
`options[<users>] = options.pop(<user>)`. -/
def UserDelete.transform_options (d : OptsDict) : Except PyError OptsDict :=
  match dpop d "<user>" with
  | Except.error e => Except.error e
  | Except.ok (uv, d1) => Except.ok (dset d1 "<users>" uv)

/-- `Create.transform_options` of the `partition create` command
(partition_cmd.py): `options[<device>] = options.pop(<device>)[0]`. -/
def PartitionCreate.transform_options (d : OptsDict) : Except PyError OptsDict :=
  match dpop d "<device>" with
  | Except.error e => Except.error e
  | Except.ok (dv, d1) =>
    match optIndex0 dv with
    | Except.error e => Except.error e
    | Except.ok d0 => Except.ok (dset d1 "<device>" d0)

/-- The partition-type request constants `PARTITION_TYPE_EXTENDED` and
`PARTITION_TYPE_LOGICAL` of `lmi.scripts.storage.partition` (not under
src/), kept abstract as two distinct markers. -/
inductive PartitionType where
  | extended
  | logical
deriving Repr, DecidableEq

/-- A partition or block-device instance: `DeviceID` and `Name` are the
properties the translated command code reads. -/
structure Partition where
  deviceID : String
  name : String
deriving Repr, DecidableEq

/-- Modelled from the spec: the `lmi.scripts.storage` library helpers that
the partition command delegates to are not under src/ (the spec says the
commands only issue provider calls), so they appear here as abstract data:
`partitions` is the enumeration returned by `partition.get_partitions(ns)`,
`resolve` is `str2device` (accepting a device name or an already resolved
instance and returning `None` on failure), `sizeOf` is `str2size`,
`showLines` is the `(Name, Value)` rows yielded by `show.partition_show`,
and `created` is the instance returned by `partition.create_partition`. -/
structure StorageNS where
  partitions : List Partition
  resolve : String ⊕ Partition → Option Partition
  sizeOf : Option String → Option Nat
  showLines : Partition → List (String × String)
  created : Partition

/-- Provider-side effects of the partition commands. -/
inductive StorageEffect where
  | createPartitionCall (device : Partition) (size : Option Nat) (ptype : Option PartitionType)
  | printLine (msg : String)
deriving Repr, DecidableEq

/-- `Create.execute` of the `partition create` command (partition_cmd.py):
resolves the device, converts the size, chooses the partition-type request
from the `--extended` and `--logical` flags (extended wins when both are
set, `None` when neither is), calls `partition.create_partition` and prints
the created partition. -/
def PartitionCreate.execute (ns : StorageNS) (device : String) (size : Option String)
    (_extended _logical : Bool) : Except PyError (List StorageEffect) :=
  match ns.resolve (Sum.inl device) with
  | Option.none => Except.error (PyError.lmiFailed ("Device \"" ++ device ++ "\" not found"))
  | some dev =>
    let sz := ns.sizeOf size
    let ptype : Option PartitionType :=
      if _extended then some PartitionType.extended
      else if _logical then some PartitionType.logical
      else Option.none
    Except.ok [StorageEffect.createPartitionCall dev sz ptype,
      StorageEffect.printLine ("Partition " ++ ns.created.name ++ ", with DeviceID " ++
        ns.created.deviceID ++ " created.")]

/-- One output row of `partition show`: a `NewTableCommand` header or a
`(Name, Value)` line. -/
inductive ShowRow where
  | newTable (title : String)
  | line (key value : String)
deriving Repr, DecidableEq

/-- The loop of `Show.execute` of the `partition show` command: each item
(a name given on the command line, or an instance from the default
enumeration) is resolved through `str2device` and rendered as a table
header followed by the detail rows. -/
def partition_show_rows (ns : StorageNS) : List (String ⊕ Partition) → Except PyError (List ShowRow)
  | [] => Except.ok []
  | p :: rest =>
    match ns.resolve p with
    | Option.none => Except.error (PyError.lmiFailed "Device not found")
    | some part =>
      match partition_show_rows ns rest with
      | Except.error e => Except.error e
      | Except.ok tail =>
        Except.ok (ShowRow.newTable part.deviceID ::
          (ns.showLines part).map (fun kv => ShowRow.line kv.1 kv.2) ++ tail)

/-- `Show.execute` of the `partition show` command (partition_cmd.py): when
the partition list is not truthy (`None` or empty) it is replaced by the
full `get_partitions` enumeration, then each item is rendered. -/
def PartitionShow.execute (ns : StorageNS) (partitions : Option (List String)) :
    Except PyError (List ShowRow) :=
  let items : List (String ⊕ Partition) :=
    if pyTruthy partitions then (partitions.getD []).map Sum.inl
    else ns.partitions.map Sum.inr
  partition_show_rows ns items

theorem lookup_cons_key_eq {α : Type} (a : String) (b : α) (l : List (String × α)) :
    List.lookup a ((a, b) :: l) = some b := by
  simp [List.lookup]

theorem lookup_cons_key_ne {α : Type} (k a : String) (b : α) (l : List (String × α))
    (h : k ≠ a) : List.lookup k ((a, b) :: l) = List.lookup k l := by
  simp [List.lookup, beq_eq_false_iff_ne.mpr h]

theorem delNones_eq_filter (l : List (String × PyVal)) :
    delNones l = l.filter (fun kv => !(kv.2 == PyVal.none)) := by
  induction l with
  | nil => rfl
  | cons kv rest ih =>
    by_cases h : kv.2 = PyVal.none
    · simp [delNones, List.filter, h, ih]
    · simp [delNones, List.filter, h, ih, beq_eq_false_iff_ne.mpr h]

theorem lookup_delNones_some (k : String) (v : PyVal) (l : List (String × PyVal))
    (h1 : List.lookup k l = some v) (h2 : v ≠ PyVal.none) :
    List.lookup k (delNones l) = some v := by
  induction l with
  | nil => simp at h1
  | cons kv rest ih =>
    obtain ⟨a, b⟩ := kv
    by_cases hk : k = a
    · subst hk
      rw [lookup_cons_key_eq] at h1
      injection h1 with h1
      subst h1
      simp [delNones, h2, lookup_cons_key_eq]
    · rw [lookup_cons_key_ne k a b rest hk] at h1
      by_cases hb : b = PyVal.none
      · simp [delNones, hb, ih h1]
      · simp only [delNones, hb]
        simp only [beq_iff_eq, hb, if_false]
        rw [lookup_cons_key_ne k a b _ hk]
        exact ih h1

theorem lookup_delNones_none (k : String) (l : List (String × PyVal))
    (h : ∀ v, (k, v) ∈ l → v = PyVal.none) :
    List.lookup k (delNones l) = Option.none := by
  induction l with
  | nil => simp [delNones]
  | cons kv rest ih =>
    obtain ⟨a, b⟩ := kv
    have hrest : ∀ v, (k, v) ∈ rest → v = PyVal.none := by
      intro v hv
      exact h v (List.mem_cons_of_mem _ hv)
    by_cases hk : k = a
    · subst hk
      have hb : b = PyVal.none := h b (List.mem_cons_self _ _)
      simp [delNones, hb, ih hrest]
    · by_cases hb : b = PyVal.none
      · simp [delNones, hb, ih hrest]
      · simp only [delNones, beq_iff_eq, hb, if_false]
        rw [lookup_cons_key_ne k a b _ hk]
        exact ih hrest

theorem mem_delNones (kv : String × PyVal) (l : List (String × PyVal))
    (h : kv ∈ delNones l) : kv ∈ l ∧ kv.2 ≠ PyVal.none := by
  rw [delNones_eq_filter] at h
  have h2 := List.of_mem_filter h
  refine ⟨List.mem_of_mem_filter h, ?_⟩
  simpa using h2

theorem lookup_dset_self (d : OptsDict) (k : String) (v : OptVal) :
    List.lookup k (dset d k v) = some v := by
  induction d with
  | nil => simp [dset, List.lookup]
  | cons kv rest ih =>
    obtain ⟨a, b⟩ := kv
    by_cases hk : a = k
    · subst hk
      simp only [dset, beq_self_eq_true, if_true]
      exact lookup_cons_key_eq a v rest
    · simp only [dset, beq_iff_eq, hk, if_false]
      rw [lookup_cons_key_ne k a b _ (fun he => hk he.symm)]
      exact ih

theorem lookup_dset_ne (d : OptsDict) (k q : String) (v : OptVal) (hq : q ≠ k) :
    List.lookup q (dset d k v) = List.lookup q d := by
  induction d with
  | nil => simp [dset, lookup_cons_key_ne q k v [] hq]
  | cons kv rest ih =>
    obtain ⟨a, b⟩ := kv
    by_cases hk : a = k
    · subst hk
      simp only [dset, beq_self_eq_true, if_true]
      rw [lookup_cons_key_ne q a v rest hq, lookup_cons_key_ne q a b rest hq]
    · simp only [dset, beq_iff_eq, hk, if_false]
      by_cases hqa : q = a
      · subst hqa
        rw [lookup_cons_key_eq, lookup_cons_key_eq]
      · rw [lookup_cons_key_ne q a b _ hqa, lookup_cons_key_ne q a b _ hqa]
        exact ih

theorem lookup_dremove_self (d : OptsDict) (k : String) :
    List.lookup k (dremove d k) = Option.none := by
  induction d with
  | nil => simp [dremove]
  | cons kv rest ih =>
    obtain ⟨a, b⟩ := kv
    by_cases hk : a = k
    · simp [dremove, hk, ih]
    · simp only [dremove, beq_iff_eq, hk, if_false]
      rw [lookup_cons_key_ne k a b _ (fun he => hk he.symm)]
      exact ih

theorem lookup_dremove_ne (d : OptsDict) (k q : String) (hq : q ≠ k) :
    List.lookup q (dremove d k) = List.lookup q d := by
  induction d with
  | nil => simp [dremove]
  | cons kv rest ih =>
    obtain ⟨a, b⟩ := kv
    by_cases hk : a = k
    · subst hk
      simp only [dremove, beq_self_eq_true, if_true]
      rw [lookup_cons_key_ne q a b rest hq]
      exact ih
    · simp only [dremove, beq_iff_eq, hk, if_false]
      by_cases hqa : q = a
      · subst hqa
        rw [lookup_cons_key_eq, lookup_cons_key_eq]
      · rw [lookup_cons_key_ne q a b _ hqa, lookup_cons_key_ne q a b _ hqa]
        exact ih

/-- The value `create_user` stores under `Password` before the deletion
loop. -/
def usedPassword (o : UserCreateOpts) : Option String :=
  if o.password.isNone && o.plainpassword.isSome then o.plainpassword else o.password

theorem lookup_raw_password (name : String) (cs : Option String) (o : UserCreateOpts) :
    List.lookup "Password" (rawCreateAccountParams name cs o) = some (optStr (usedPassword o)) :=
  rfl

theorem lookup_raw_passwordIsPlain (name : String) (cs : Option String) (o : UserCreateOpts) :
    List.lookup "PasswordIsPlain" (rawCreateAccountParams name cs o) =
      some (PyVal.bool (o.password.isNone && o.plainpassword.isSome)) :=
  rfl

theorem mem_raw_password (name : String) (cs : Option String) (o : UserCreateOpts) (v : PyVal)
    (h : ("Password", v) ∈ rawCreateAccountParams name cs o) : v = optStr (usedPassword o) := by
  simp [rawCreateAccountParams, usedPassword] at h
  simpa [usedPassword] using h

/-- C4: in `create_user`, the `CreateAccount` call receives
`PasswordIsPlain=True` exactly when `--password` is unset and
`--plainpassword` is set, in which case `Password` carries the plain-text
value; otherwise `Password` carries the `--password` value, and is omitted
from the parameters when that is `None`. -/
theorem create_user_password_handling (ns : AccountNS) (name : String) (o : UserCreateOpts)
    (l : String) (hl : ns.lams = some l) :
    ∃ ps, create_user ns name o = Except.ok [Effect.createAccountCall ps] ∧
      (List.lookup "PasswordIsPlain" ps = some (PyVal.bool true) ↔
        (o.password = Option.none ∧ o.plainpassword ≠ Option.none)) ∧
      (∀ q, o.password = Option.none → o.plainpassword = some q →
        List.lookup "Password" ps = some (PyVal.str q)) ∧
      (∀ p, o.password = some p → List.lookup "Password" ps = some (PyVal.str p)) ∧
      (o.password = Option.none → o.plainpassword = Option.none →
        List.lookup "Password" ps = Option.none) := by
  refine ⟨delNones (rawCreateAccountParams name ns.computerSystem o), ?_, ?_, ?_, ?_, ?_⟩
  · simp [create_user, hl]
  · have hb := lookup_delNones_some "PasswordIsPlain"
      (PyVal.bool (o.password.isNone && o.plainpassword.isSome))
      (rawCreateAccountParams name ns.computerSystem o)
      (lookup_raw_passwordIsPlain name ns.computerSystem o) (by simp)
    rw [hb]
    constructor
    · intro h
      injection h with h
      injection h with h
      obtain ⟨h1, h2⟩ := Bool.and_eq_true_iff.mp h
      exact ⟨Option.isNone_iff_eq_none.mp h1, Option.isSome_iff_ne_none.mp h2⟩
    · rintro ⟨h1, h2⟩
      have : (o.password.isNone && o.plainpassword.isSome) = true := by
        simp [h1, Option.isSome_iff_ne_none.mpr h2]
      rw [this]
  · intro q hp hq
    have hu : usedPassword o = some q := by simp [usedPassword, hp, hq]
    have := lookup_raw_password name ns.computerSystem o
    rw [hu] at this
    exact lookup_delNones_some "Password" (PyVal.str q) _ this (by simp)
  · intro p hp
    have hu : usedPassword o = some p := by simp [usedPassword, hp]
    have := lookup_raw_password name ns.computerSystem o
    rw [hu] at this
    exact lookup_delNones_some "Password" (PyVal.str p) _ this (by simp)
  · intro hp hq
    refine lookup_delNones_none "Password" _ ?_
    intro v hv
    have := mem_raw_password name ns.computerSystem o v hv
    rw [this]
    simp [usedPassword, hp, hq, optStr]

/-- A concrete namespace with a management service and a computer system
but no accounts or groups, used to evaluate the creation commands. -/
def nsCreateOnly : AccountNS where
  accounts := []
  groups := []
  groupFirstIdentity := fun _ => Option.none
  groupIdentities := fun _ => []
  userIdentity := fun _ => Option.none
  identityAccount := fun _ => Option.none
  identityMogs := fun _ => []
  computerSystem := some "cs0"
  lams := some "ams0"

/-- The `user create` options with only `--plainpassword` supplied. -/
def optsPlainOnly : UserCreateOpts where
  plainpassword := some "pw"

/-- Witness for C4 at a concrete input: only the plain password is set, so
the parameters carry `PasswordIsPlain=True` and the plain-text value. -/
theorem create_user_password_handling_witness :
    nsCreateOnly.lams = some "ams0" ∧
    (∃ ps, create_user nsCreateOnly "alice" optsPlainOnly =
        Except.ok [Effect.createAccountCall ps] ∧
      (List.lookup "PasswordIsPlain" ps = some (PyVal.bool true) ↔
        (optsPlainOnly.password = Option.none ∧ optsPlainOnly.plainpassword ≠ Option.none)) ∧
      (∀ q, optsPlainOnly.password = Option.none → optsPlainOnly.plainpassword = some q →
        List.lookup "Password" ps = some (PyVal.str q)) ∧
      (∀ p, optsPlainOnly.password = some p →
        List.lookup "Password" ps = some (PyVal.str p)) ∧
      (optsPlainOnly.password = Option.none → optsPlainOnly.plainpassword = Option.none →
        List.lookup "Password" ps = Option.none)) :=
  ⟨rfl, create_user_password_handling nsCreateOnly "alice" optsPlainOnly "ams0" rfl⟩

theorem lookup_raw_name (name : String) (cs : Option String) (o : UserCreateOpts) :
    List.lookup "Name" (rawCreateAccountParams name cs o) = some (PyVal.str name) :=
  rfl

theorem lookup_raw_system (name : String) (cs : Option String) (o : UserCreateOpts) :
    List.lookup "System" (rawCreateAccountParams name cs o) = some (optInst cs) :=
  rfl

theorem lookup_raw_gecos (name : String) (cs : Option String) (o : UserCreateOpts) :
    List.lookup "GECOS" (rawCreateAccountParams name cs o) = some (optStr o.gecos) :=
  rfl

theorem lookup_raw_homeDirectory (name : String) (cs : Option String) (o : UserCreateOpts) :
    List.lookup "HomeDirectory" (rawCreateAccountParams name cs o) = some (optStr o.directory) :=
  rfl

theorem lookup_raw_shell (name : String) (cs : Option String) (o : UserCreateOpts) :
    List.lookup "Shell" (rawCreateAccountParams name cs o) = some (optStr o.shell) :=
  rfl

theorem lookup_raw_uid (name : String) (cs : Option String) (o : UserCreateOpts) :
    List.lookup "UID" (rawCreateAccountParams name cs o) = some (optStr o.uid) :=
  rfl

theorem lookup_raw_gid (name : String) (cs : Option String) (o : UserCreateOpts) :
    List.lookup "GID" (rawCreateAccountParams name cs o) = some (optStr o.gid) :=
  rfl

theorem lookup_raw_dontCreateHome (name : String) (cs : Option String) (o : UserCreateOpts) :
    List.lookup "DontCreateHome" (rawCreateAccountParams name cs o) =
      some (PyVal.bool o.nocreatehome) :=
  rfl

theorem lookup_raw_systemAccount (name : String) (cs : Option String) (o : UserCreateOpts) :
    List.lookup "SystemAccount" (rawCreateAccountParams name cs o) =
      some (PyVal.bool o.reserved) :=
  rfl

theorem lookup_raw_dontCreateGroup (name : String) (cs : Option String) (o : UserCreateOpts) :
    List.lookup "DontCreateGroup" (rawCreateAccountParams name cs o) =
      some (PyVal.bool o.nocreategroup) :=
  rfl

theorem mem_raw_system (name : String) (cs : Option String) (o : UserCreateOpts) (v : PyVal)
    (h : ("System", v) ∈ rawCreateAccountParams name cs o) : v = optInst cs := by
  simp [rawCreateAccountParams] at h
  exact h

theorem mem_raw_gecos (name : String) (cs : Option String) (o : UserCreateOpts) (v : PyVal)
    (h : ("GECOS", v) ∈ rawCreateAccountParams name cs o) : v = optStr o.gecos := by
  simp [rawCreateAccountParams] at h
  exact h

theorem mem_raw_homeDirectory (name : String) (cs : Option String) (o : UserCreateOpts) (v : PyVal)
    (h : ("HomeDirectory", v) ∈ rawCreateAccountParams name cs o) : v = optStr o.directory := by
  simp [rawCreateAccountParams] at h
  exact h

theorem mem_raw_shell (name : String) (cs : Option String) (o : UserCreateOpts) (v : PyVal)
    (h : ("Shell", v) ∈ rawCreateAccountParams name cs o) : v = optStr o.shell := by
  simp [rawCreateAccountParams] at h
  exact h

theorem mem_raw_uid (name : String) (cs : Option String) (o : UserCreateOpts) (v : PyVal)
    (h : ("UID", v) ∈ rawCreateAccountParams name cs o) : v = optStr o.uid := by
  simp [rawCreateAccountParams] at h
  exact h

theorem mem_raw_gid (name : String) (cs : Option String) (o : UserCreateOpts) (v : PyVal)
    (h : ("GID", v) ∈ rawCreateAccountParams name cs o) : v = optStr o.gid := by
  simp [rawCreateAccountParams] at h
  exact h

/-- C5 (amended): in `create_group` the parameters hold `Name` and `System`
always (`System` even as `None`), `SystemAccount` (as `True`) exactly when
`--reserved` is set and `GID` exactly when `--gid` is supplied; in
`create_user` every `None`-valued entry is deleted before `CreateAccount`,
so every unset string-valued option (and `System` when no
`Linux_ComputerSystem` instance exists) is absent, `Name` is always
present, while boolean flag options remain present as `False` even when
unset. -/
theorem create_params_omit_unset_options (ns : AccountNS) (name group : String)
    (o : UserCreateOpts) (_reserved : Bool) (_gid : Option String)
    (l : String) (hl : ns.lams = some l) :
    (∃ ps, create_group ns group _reserved _gid = Except.ok [Effect.createGroupCall ps] ∧
      List.lookup "Name" ps = some (PyVal.str group) ∧
      List.lookup "System" ps = some (optInst ns.computerSystem) ∧
      List.lookup "SystemAccount" ps =
        (if _reserved then some (PyVal.bool true) else Option.none) ∧
      List.lookup "GID" ps = _gid.map PyVal.str) ∧
    (∃ ps, create_user ns name o = Except.ok [Effect.createAccountCall ps] ∧
      (∀ kv ∈ ps, kv.2 ≠ PyVal.none) ∧
      List.lookup "Name" ps = some (PyVal.str name) ∧
      (∀ c, ns.computerSystem = some c → List.lookup "System" ps = some (PyVal.inst c)) ∧
      (ns.computerSystem = Option.none → List.lookup "System" ps = Option.none) ∧
      (o.gecos = Option.none → List.lookup "GECOS" ps = Option.none) ∧
      (∀ s, o.gecos = some s → List.lookup "GECOS" ps = some (PyVal.str s)) ∧
      (o.directory = Option.none → List.lookup "HomeDirectory" ps = Option.none) ∧
      (o.shell = Option.none → List.lookup "Shell" ps = Option.none) ∧
      (o.uid = Option.none → List.lookup "UID" ps = Option.none) ∧
      (o.gid = Option.none → List.lookup "GID" ps = Option.none) ∧
      List.lookup "DontCreateHome" ps = some (PyVal.bool o.nocreatehome) ∧
      List.lookup "SystemAccount" ps = some (PyVal.bool o.reserved) ∧
      List.lookup "DontCreateGroup" ps = some (PyVal.bool o.nocreategroup)) := by
  constructor
  · cases _reserved with
    | false =>
      cases _gid with
      | none =>
        exact ⟨[("Name", PyVal.str group), ("System", optInst ns.computerSystem)],
          by simp [create_group, hl], rfl, rfl, rfl, rfl⟩
      | some g =>
        exact ⟨[("Name", PyVal.str group), ("System", optInst ns.computerSystem),
            ("GID", PyVal.str g)],
          by simp [create_group, hl], rfl, rfl, rfl, rfl⟩
    | true =>
      cases _gid with
      | none =>
        exact ⟨[("Name", PyVal.str group), ("System", optInst ns.computerSystem),
            ("SystemAccount", PyVal.bool true)],
          by simp [create_group, hl], rfl, rfl, rfl, rfl⟩
      | some g =>
        exact ⟨[("Name", PyVal.str group), ("System", optInst ns.computerSystem),
            ("SystemAccount", PyVal.bool true), ("GID", PyVal.str g)],
          by simp [create_group, hl], rfl, rfl, rfl, rfl⟩
  · refine ⟨delNones (rawCreateAccountParams name ns.computerSystem o),
      by simp [create_user, hl], ?_, ?_, ?_, ?_, ?_, ?_, ?_, ?_, ?_, ?_, ?_, ?_, ?_⟩
    · intro kv hkv
      exact (mem_delNones kv _ hkv).2
    · exact lookup_delNones_some "Name" (PyVal.str name) _
        (lookup_raw_name name ns.computerSystem o) (by simp)
    · intro c hc
      have hsys : List.lookup "System" (rawCreateAccountParams name ns.computerSystem o) =
          some (PyVal.inst c) := by
        simp [lookup_raw_system, hc, optInst]
      exact lookup_delNones_some "System" (PyVal.inst c) _ hsys (by simp)
    · intro hc
      refine lookup_delNones_none "System" _ ?_
      intro v hv
      rw [mem_raw_system name ns.computerSystem o v hv, hc]
      rfl
    · intro hg
      refine lookup_delNones_none "GECOS" _ ?_
      intro v hv
      rw [mem_raw_gecos name ns.computerSystem o v hv, hg]
      rfl
    · intro s hs
      have := lookup_raw_gecos name ns.computerSystem o
      rw [hs] at this
      exact lookup_delNones_some "GECOS" (PyVal.str s) _ this (by simp)
    · intro hd
      refine lookup_delNones_none "HomeDirectory" _ ?_
      intro v hv
      rw [mem_raw_homeDirectory name ns.computerSystem o v hv, hd]
      rfl
    · intro hs
      refine lookup_delNones_none "Shell" _ ?_
      intro v hv
      rw [mem_raw_shell name ns.computerSystem o v hv, hs]
      rfl
    · intro hu
      refine lookup_delNones_none "UID" _ ?_
      intro v hv
      rw [mem_raw_uid name ns.computerSystem o v hv, hu]
      rfl
    · intro hg
      refine lookup_delNones_none "GID" _ ?_
      intro v hv
      rw [mem_raw_gid name ns.computerSystem o v hv, hg]
      rfl
    · exact lookup_delNones_some "DontCreateHome" (PyVal.bool o.nocreatehome) _
        (lookup_raw_dontCreateHome name ns.computerSystem o) (by simp)
    · exact lookup_delNones_some "SystemAccount" (PyVal.bool o.reserved) _
        (lookup_raw_systemAccount name ns.computerSystem o) (by simp)
    · exact lookup_delNones_some "DontCreateGroup" (PyVal.bool o.nocreategroup) _
        (lookup_raw_dontCreateGroup name ns.computerSystem o) (by simp)

/-- The `user create` options with every option left unset. -/
def optsAllDefault : UserCreateOpts := {}

/-- C5 counterexample: with every option unset, the filtered `CreateAccount`
parameter dictionary still contains the unset boolean flag options
(`DontCreateHome`, `SystemAccount`, `DontCreateGroup`, and
`PasswordIsPlain`) with value `False`, so an option the caller left unset
is not always absent. -/
theorem create_user_unset_flags_present :
    create_user nsCreateOnly "carol" optsAllDefault =
      Except.ok [Effect.createAccountCall
        [("Name", PyVal.str "carol"), ("System", PyVal.inst "cs0"),
         ("DontCreateHome", PyVal.bool false), ("SystemAccount", PyVal.bool false),
         ("DontCreateGroup", PyVal.bool false), ("PasswordIsPlain", PyVal.bool false)]] ∧
    List.lookup "DontCreateHome"
        [("Name", PyVal.str "carol"), ("System", PyVal.inst "cs0"),
         ("DontCreateHome", PyVal.bool false), ("SystemAccount", PyVal.bool false),
         ("DontCreateGroup", PyVal.bool false), ("PasswordIsPlain", PyVal.bool false)] ≠
      Option.none := by
  exact ⟨rfl, by simp⟩

/-- Witness for C5 at a concrete input: the `create_group` half of the
theorem applied with `--reserved` set and `--gid 4`. -/
theorem create_params_omit_unset_options_witness :
    nsCreateOnly.lams = some "ams0" ∧
    (∃ ps, create_group nsCreateOnly "wheel" true (some "4") =
        Except.ok [Effect.createGroupCall ps] ∧
      List.lookup "Name" ps = some (PyVal.str "wheel") ∧
      List.lookup "System" ps = some (optInst nsCreateOnly.computerSystem) ∧
      List.lookup "SystemAccount" ps =
        (if true then some (PyVal.bool true) else Option.none) ∧
      List.lookup "GID" ps = (some "4").map PyVal.str) :=
  ⟨rfl, (create_params_omit_unset_options nsCreateOnly "carol" "wheel" optsAllDefault
    true (some "4") "ams0" rfl).1⟩

/-- A concrete namespace with one group named grp and no accounts, for
evaluating the membership commands at a missing user name. -/
def nsMissingUser : AccountNS where
  accounts := []
  groups := [⟨"grp", "LMI:GID:1000"⟩]
  groupFirstIdentity := fun _ => Option.none
  groupIdentities := fun _ => []
  userIdentity := fun _ => Option.none
  identityAccount := fun _ => Option.none
  identityMogs := fun _ => []
  computerSystem := some "cs0"
  lams := some "ams0"

/-- C1: evaluation of `add_to_group` at its failing input.  The group grp
exists and the user bob has no `LMI_Account` instance, yet the call does
not raise `LmiFailed` with the message from the source: because the code
tests `user is None` on the name string instead of `user_inst is None`, it
goes on to call a method on the `None` lookup result and dies with
`AttributeError`.  The sibling `remove_from_group`, which tests the lookup
result, raises the intended `LmiFailed` at the same input. -/
theorem add_to_group_missing_user_behaviour :
    add_to_group nsMissingUser "grp" ["bob"] =
      Except.error (PyError.attributeError "NoneType object has no attribute first_associator") ∧
    remove_from_group nsMissingUser "grp" ["bob"] =
      Except.error (PyError.lmiFailed "No such user \"bob\"") :=
  ⟨rfl, rfl⟩

/-- The `user create` options with both password options supplied. -/
def optsBothPw : UserCreateOpts where
  password := some "hash"
  plainpassword := some "plain"

/-- C3: when both `--password` and `--plainpassword` are supplied,
`verify_options` of `user create` raises
`LmiInvalidOptions("Must set only one of password options")`, and the
verify-then-call pipeline therefore never reaches `CreateAccount`. -/
theorem user_create_both_passwords (ns : AccountNS) (name : String) (o : UserCreateOpts)
    (p q : String) (hp : o.password = some p) (hq : o.plainpassword = some q) :
    UserCreate.verify_options o =
      Except.error (PyError.lmiInvalidOptions "Must set only one of password options") ∧
    runUserCreateCmd ns name o =
      Except.error (PyError.lmiInvalidOptions "Must set only one of password options") := by
  have hv : UserCreate.verify_options o =
      Except.error (PyError.lmiInvalidOptions "Must set only one of password options") := by
    simp [UserCreate.verify_options, hp, hq]
  exact ⟨hv, by simp [runUserCreateCmd, hv]⟩

/-- Witness for C3 at a concrete input. -/
theorem user_create_both_passwords_witness :
    optsBothPw.password = some "hash" ∧ optsBothPw.plainpassword = some "plain" ∧
    (UserCreate.verify_options optsBothPw =
      Except.error (PyError.lmiInvalidOptions "Must set only one of password options") ∧
    runUserCreateCmd nsCreateOnly "dave" optsBothPw =
      Except.error (PyError.lmiInvalidOptions "Must set only one of password options")) :=
  ⟨rfl, rfl, user_create_both_passwords nsCreateOnly "dave" optsBothPw "hash" "plain" rfl rfl⟩

/-- C6: every group operation given an explicit group name whose
`LMI_Group` lookup fails raises `LmiFailed` with the quoted name and
performs no provider call. -/
theorem group_ops_missing_group (ns : AccountNS) (g : String) (users : List String)
    (h : lookupGroup ns g = Option.none) :
    show_group ns (some [g]) =
      Except.error (PyError.lmiFailed ("No such group \"" ++ g ++ "\"")) ∧
    list_users ns (some [g]) =
      Except.error (PyError.lmiFailed ("No such group \"" ++ g ++ "\"")) ∧
    delete_group ns g =
      Except.error (PyError.lmiFailed ("No such group \"" ++ g ++ "\"")) ∧
    add_to_group ns g users =
      Except.error (PyError.lmiFailed ("No such group \"" ++ g ++ "\"")) ∧
    remove_from_group ns g users =
      Except.error (PyError.lmiFailed ("No such group \"" ++ g ++ "\"")) := by
  refine ⟨?_, ?_, ?_, ?_, ?_⟩
  · simp [show_group, pyTruthy, show_group_loop, h]
  · simp [list_users, pyTruthy, list_users_loop, h]
  · simp [delete_group, h]
  · simp [add_to_group, h]
  · simp [remove_from_group, h]

/-- Witness for C6 at a concrete input: a namespace with no groups. -/
theorem group_ops_missing_group_witness :
    lookupGroup nsCreateOnly "adm" = Option.none ∧
    delete_group nsCreateOnly "adm" =
      Except.error (PyError.lmiFailed "No such group \"adm\"") :=
  ⟨rfl, (group_ops_missing_group nsCreateOnly "adm" ["zed"] rfl).2.2.1⟩

theorem resolve_users_error (ns : AccountNS) (users : List String) (u : String)
    (h : users.find? (fun x => (lookupAccount ns x).isNone) = some u) :
    resolve_users ns users =
      Except.error (PyError.lmiFailed ("No such user \"" ++ u ++ "\"")) := by
  induction users with
  | nil => simp at h
  | cons u0 rest ih =>
    cases hl : lookupAccount ns u0 with
    | none =>
      simp [List.find?_cons, hl] at h
      subst h
      simp [resolve_users, hl]
    | some inst =>
      simp [List.find?_cons, hl] at h
      simp [resolve_users, hl, ih h]

theorem resolve_users_ok (ns : AccountNS) (users : List String)
    (h : ∀ u ∈ users, (lookupAccount ns u).isSome) :
    ∃ insts, resolve_users ns users = Except.ok insts ∧ insts.length = users.length := by
  induction users with
  | nil => exact ⟨[], rfl, rfl⟩
  | cons u0 rest ih =>
    have h0 := h u0 (List.mem_cons_self _ _)
    obtain ⟨inst, hl⟩ := Option.isSome_iff_exists.mp h0
    obtain ⟨insts, hr, hlen⟩ := ih (fun u hu => h u (List.mem_cons_of_mem _ hu))
    exact ⟨inst :: insts, by simp [resolve_users, hl, hr], by simp [hlen]⟩

/-- C9: `delete_user` is all-or-nothing over name resolution: when some
name fails to resolve, the first such name produces the `LmiFailed` error
and no `DeleteUser` call is issued; when every name resolves, one
`DeleteUser` call is issued per resolved instance. -/
theorem delete_user_all_or_nothing (ns : AccountNS) (g1 g2 f : Bool) (users : List String) :
    (∀ u, users.find? (fun x => (lookupAccount ns x).isNone) = some u →
      delete_user ns g1 g2 f users =
        Except.error (PyError.lmiFailed ("No such user \"" ++ u ++ "\""))) ∧
    ((∀ u ∈ users, (lookupAccount ns u).isSome) →
      ∃ insts, resolve_users ns users = Except.ok insts ∧ insts.length = users.length ∧
        delete_user ns g1 g2 f users = Except.ok (insts.map (fun i =>
          Effect.deleteUserCall i.name (delete_user_params g1 g2 f)))) := by
  constructor
  · intro u hu
    simp [delete_user, resolve_users_error ns users u hu]
  · intro h
    obtain ⟨insts, hr, hlen⟩ := resolve_users_ok ns users h
    exact ⟨insts, hr, hlen, by simp [delete_user, hr]⟩

/-- A concrete namespace with a single account named alice. -/
def nsOneUser : AccountNS where
  accounts := [⟨"alice", "1000"⟩]
  groups := []
  groupFirstIdentity := fun _ => Option.none
  groupIdentities := fun _ => []
  userIdentity := fun _ => Option.none
  identityAccount := fun _ => Option.none
  identityMogs := fun _ => []
  computerSystem := some "cs0"
  lams := some "ams0"

/-- Witness for C9 at a concrete input: alice resolves but ghost does
not, so the whole deletion fails with no `DeleteUser` call. -/
theorem delete_user_all_or_nothing_witness :
    ["alice", "ghost"].find? (fun x => (lookupAccount nsOneUser x).isNone) = some "ghost" ∧
    delete_user nsOneUser false false false ["alice", "ghost"] =
      Except.error (PyError.lmiFailed "No such user \"ghost\"") :=
  ⟨rfl, (delete_user_all_or_nothing nsOneUser false false false ["alice", "ghost"]).1 "ghost" rfl⟩

/-- C10: at the public interface an empty name list behaves exactly like
no names: `show_group`, `show_user` and the partition `Show.execute`
enumerate every instance for both `None` and `[]`. -/
theorem empty_name_list_like_none (nsa : AccountNS) (nss : StorageNS) :
    show_group nsa (some []) = Except.ok nsa.groups ∧
    show_group nsa Option.none = Except.ok nsa.groups ∧
    show_user nsa (some []) = Except.ok nsa.accounts ∧
    show_user nsa Option.none = Except.ok nsa.accounts ∧
    PartitionShow.execute nss (some []) =
      partition_show_rows nss (nss.partitions.map Sum.inr) ∧
    PartitionShow.execute nss Option.none =
      partition_show_rows nss (nss.partitions.map Sum.inr) :=
  ⟨rfl, rfl, rfl, rfl, rfl, rfl⟩

/-- C8: the partition-type argument handed to `create_partition` is
exactly the flag-derived value: extended when `--extended` is set (also
when both flags are set), logical when only `--logical` is set, `None`
when neither is. -/
theorem partition_create_ptype (nss : StorageNS) (device : String) (size : Option String)
    (_extended _logical : Bool) (dev : Partition)
    (h : nss.resolve (Sum.inl device) = some dev) :
    PartitionCreate.execute nss device size _extended _logical =
      Except.ok [StorageEffect.createPartitionCall dev (nss.sizeOf size)
          (if _extended then some PartitionType.extended
           else if _logical then some PartitionType.logical else Option.none),
        StorageEffect.printLine ("Partition " ++ nss.created.name ++ ", with DeviceID " ++
          nss.created.deviceID ++ " created.")] := by
  simp [PartitionCreate.execute, h]

/-- A concrete storage namespace resolving the device name sda. -/
def nssSample : StorageNS where
  partitions := [⟨"DID1", "p1"⟩]
  resolve := fun x =>
    match x with
    | Sum.inl s => if s == "sda" then some ⟨"DIDsda", "sda"⟩ else Option.none
    | Sum.inr p => some p
  sizeOf := fun _ => Option.none
  showLines := fun _ => []
  created := ⟨"DIDnew", "newp"⟩

/-- Witness for C8 at a concrete input with both flags set: the extended
request wins. -/
theorem partition_create_ptype_witness :
    nssSample.resolve (Sum.inl "sda") = some ⟨"DIDsda", "sda"⟩ ∧
    PartitionCreate.execute nssSample "sda" Option.none true true =
      Except.ok [StorageEffect.createPartitionCall ⟨"DIDsda", "sda"⟩
          (nssSample.sizeOf Option.none)
          (if true then some PartitionType.extended
           else if true then some PartitionType.logical else Option.none),
        StorageEffect.printLine ("Partition " ++ nssSample.created.name ++ ", with DeviceID " ++
          nssSample.created.deviceID ++ " created.")] :=
  ⟨rfl, partition_create_ptype nssSample "sda" Option.none true true ⟨"DIDsda", "sda"⟩ rfl⟩

theorem pyIsdigit_eq_false_of_nondigit (s : String) (c : Char) (hc : c ∈ s.data)
    (hd : c.isDigit = false) : pyIsdigit s = false := by
  have hall : s.data.all Char.isDigit = false := by
    apply Bool.eq_false_iff.mpr
    intro hall
    rw [List.all_eq_true] at hall
    have h := hall c hc
    rw [hd] at h
    exact Bool.false_ne_true h
  simp [pyIsdigit, hall]

/-- C2 counterexample: with both password options supplied together with a
non-digit `--uid`, `verify_options` of `user create` raises
`LmiInvalidOptions` with the password-conflict message, not the
`User ID must be a number` message the claim names for a non-digit
`--uid`, because the password-pair check runs first. -/
theorem user_verify_uid_message_shadowed :
    (∃ c ∈ "x7".data, c.isDigit = false) ∧
    UserCreate.verify_options { optsBothPw with uid := some "x7" } =
      Except.error (PyError.lmiInvalidOptions "Must set only one of password options") ∧
    UserCreate.verify_options { optsBothPw with uid := some "x7" } ≠
      Except.error (PyError.lmiInvalidOptions "User ID must be a number") := by
  have hv : UserCreate.verify_options { optsBothPw with uid := some "x7" } =
      Except.error (PyError.lmiInvalidOptions "Must set only one of password options") := rfl
  refine ⟨⟨'x', by decide, by decide⟩, hv, ?_⟩
  rw [hv]
  simp

/-- C2 (amended): a supplied `--uid` or `--gid` containing a non-digit
character makes `verify_options` raise `LmiInvalidOptions`, so the
pipeline never calls the provider; the message is
`User ID must be a number` / `Group ID must be a number` when no earlier
check has fired first (in `user create` the password-pair check precedes
both and the `--uid` check precedes the `--gid` check; in `group create`
the message is unconditional). -/
theorem verify_rejects_nondigit_ids (ns : AccountNS) (name group : String)
    (o : UserCreateOpts) (_reserved : Bool) (_gid : Option String) :
    (∀ u c, o.uid = some u → c ∈ u.data → c.isDigit = false →
      (∃ m, runUserCreateCmd ns name o = Except.error (PyError.lmiInvalidOptions m)) ∧
      ((o.password.isSome && o.plainpassword.isSome) = false →
        runUserCreateCmd ns name o =
          Except.error (PyError.lmiInvalidOptions "User ID must be a number"))) ∧
    (∀ g c, o.gid = some g → c ∈ g.data → c.isDigit = false →
      (∃ m, runUserCreateCmd ns name o = Except.error (PyError.lmiInvalidOptions m)) ∧
      ((o.password.isSome && o.plainpassword.isSome) = false →
        suppliedNotDigit o.uid = false →
        runUserCreateCmd ns name o =
          Except.error (PyError.lmiInvalidOptions "Group ID must be a number"))) ∧
    (∀ g c, _gid = some g → c ∈ g.data → c.isDigit = false →
      runGroupCreateCmd ns group _reserved _gid =
        Except.error (PyError.lmiInvalidOptions "Group ID must be a number")) := by
  refine ⟨?_, ?_, ?_⟩
  · intro u c hu hc hd
    have hnd : suppliedNotDigit o.uid = true := by
      rw [hu]
      simp [suppliedNotDigit, pyIsdigit_eq_false_of_nondigit u c hc hd]
    constructor
    · cases hpq : (o.password.isSome && o.plainpassword.isSome) with
      | true =>
        exact ⟨"Must set only one of password options",
          by simp [runUserCreateCmd, UserCreate.verify_options, hpq]⟩
      | false =>
        exact ⟨"User ID must be a number",
          by simp [runUserCreateCmd, UserCreate.verify_options, hpq, hnd]⟩
    · intro hpq
      simp [runUserCreateCmd, UserCreate.verify_options, hpq, hnd]
  · intro g c hg hc hd
    have hnd : suppliedNotDigit o.gid = true := by
      rw [hg]
      simp [suppliedNotDigit, pyIsdigit_eq_false_of_nondigit g c hc hd]
    constructor
    · cases hpq : (o.password.isSome && o.plainpassword.isSome) with
      | true =>
        exact ⟨"Must set only one of password options",
          by simp [runUserCreateCmd, UserCreate.verify_options, hpq]⟩
      | false =>
        cases hud : suppliedNotDigit o.uid with
        | true =>
          exact ⟨"User ID must be a number",
            by simp [runUserCreateCmd, UserCreate.verify_options, hpq, hud]⟩
        | false =>
          exact ⟨"Group ID must be a number",
            by simp [runUserCreateCmd, UserCreate.verify_options, hpq, hud, hnd]⟩
    · intro hpq hud
      simp [runUserCreateCmd, UserCreate.verify_options, hpq, hud, hnd]
  · intro g c hg hc hd
    have hnd : suppliedNotDigit _gid = true := by
      rw [hg]
      simp [suppliedNotDigit, pyIsdigit_eq_false_of_nondigit g c hc hd]
    simp [runGroupCreateCmd, GroupCreate.verify_options, hnd]

/-- Witness for C2 (amended) at a concrete input: `group create` with
`--gid 9a`. -/
theorem verify_rejects_nondigit_ids_witness :
    'a' ∈ "9a".data ∧ Char.isDigit 'a' = false ∧
    runGroupCreateCmd nsCreateOnly "devs" false (some "9a") =
      Except.error (PyError.lmiInvalidOptions "Group ID must be a number") :=
  ⟨by decide, by decide, (verify_rejects_nondigit_ids nsCreateOnly "dave" "devs"
    optsAllDefault false (some "9a")).2.2 "9a" 'a' rfl (by decide) (by decide)⟩

/-- C7: before the handler is invoked, `transform_options` renames
multi-valued arguments to the handler parameter name with the list value
preserved and replaces list-parsed scalar arguments by the head of the
list: `group add` turns `<group>` into the head of its list and moves
`<user>` unchanged to `<users>`; `user delete` moves `<user>` unchanged to
`<users>`; `partition create` turns `<device>` into the head of its
list. -/
theorem transform_options_renames (dA dD dP : OptsDict) (g d0 : String)
    (gs usA usD drest : List String)
    (hAg : List.lookup "<group>" dA = some (OptVal.list (g :: gs)))
    (hAu : List.lookup "<user>" dA = some (OptVal.list usA))
    (hDu : List.lookup "<user>" dD = some (OptVal.list usD))
    (hPd : List.lookup "<device>" dP = some (OptVal.list (d0 :: drest))) :
    (∃ d', GroupAdd.transform_options dA = Except.ok d' ∧
      List.lookup "<group>" d' = some (OptVal.str g) ∧
      List.lookup "<users>" d' = some (OptVal.list usA) ∧
      List.lookup "<user>" d' = Option.none) ∧
    (∃ d', UserDelete.transform_options dD = Except.ok d' ∧
      List.lookup "<users>" d' = some (OptVal.list usD) ∧
      List.lookup "<user>" d' = Option.none) ∧
    (∃ d', PartitionCreate.transform_options dP = Except.ok d' ∧
      List.lookup "<device>" d' = some (OptVal.str d0)) := by
  refine ⟨?_, ?_, ?_⟩
  · have hu2 : List.lookup "<user>"
        (dset (dremove dA "<group>") "<group>" (OptVal.str g)) = some (OptVal.list usA) := by
      rw [lookup_dset_ne _ _ _ _ (by decide), lookup_dremove_ne _ _ _ (by decide)]
      exact hAu
    have h1 : GroupAdd.transform_options dA =
        Except.ok (dset (dremove (dset (dremove dA "<group>") "<group>" (OptVal.str g))
          "<user>") "<users>" (OptVal.list usA)) := by
      simp [GroupAdd.transform_options, dpop, hAg, hu2, optIndex0]
    refine ⟨_, h1, ?_, ?_, ?_⟩
    · rw [lookup_dset_ne _ _ _ _ (by decide), lookup_dremove_ne _ _ _ (by decide)]
      exact lookup_dset_self _ _ _
    · exact lookup_dset_self _ _ _
    · rw [lookup_dset_ne _ _ _ _ (by decide)]
      exact lookup_dremove_self _ _
  · have h1 : UserDelete.transform_options dD =
        Except.ok (dset (dremove dD "<user>") "<users>" (OptVal.list usD)) := by
      simp [UserDelete.transform_options, dpop, hDu]
    refine ⟨_, h1, ?_, ?_⟩
    · exact lookup_dset_self _ _ _
    · rw [lookup_dset_ne _ _ _ _ (by decide)]
      exact lookup_dremove_self _ _
  · have h1 : PartitionCreate.transform_options dP =
        Except.ok (dset (dremove dP "<device>") "<device>" (OptVal.str d0)) := by
      simp [PartitionCreate.transform_options, dpop, hPd, optIndex0]
    exact ⟨_, h1, lookup_dset_self _ _ _⟩

/-- A concrete `group add` options dictionary. -/
def dSampleAdd : OptsDict :=
  [("<group>", OptVal.list ["adm", "x"]), ("<user>", OptVal.list ["u1", "u2"])]

/-- A concrete `user delete` options dictionary. -/
def dSampleDel : OptsDict := [("<user>", OptVal.list ["v"])]

/-- A concrete `partition create` options dictionary. -/
def dSamplePart : OptsDict := [("<device>", OptVal.list ["sda", "sdb"])]

/-- Witness for C7 at concrete dictionaries. -/
theorem transform_options_renames_witness :
    List.lookup "<group>" dSampleAdd = some (OptVal.list ["adm", "x"]) ∧
    List.lookup "<user>" dSampleAdd = some (OptVal.list ["u1", "u2"]) ∧
    (∃ d', GroupAdd.transform_options dSampleAdd = Except.ok d' ∧
      List.lookup "<group>" d' = some (OptVal.str "adm") ∧
      List.lookup "<users>" d' = some (OptVal.list ["u1", "u2"]) ∧
      List.lookup "<user>" d' = Option.none) :=
  ⟨rfl, rfl, (transform_options_renames dSampleAdd dSampleDel dSamplePart "adm" "sda"
    ["x"] ["u1", "u2"] ["v"] ["sdb"] rfl rfl rfl rfl).1⟩
